import Mathlib

/-!
Verification of the SMPL motion exporter (`src/save_smpl_node.py`,
`SaveSMPL.save_smpl`).

The Python routine is embedded shallowly:

* Python dicts become association lists `List (String × _)` (Python dicts
  have unique keys; lookup takes the first match).
* numpy arrays become `NDArray` (shape, dtype tag, flat integer payload —
  the numeric content is opaque to the exporter, which never reads it).
* torch tensors vs. plain array-likes become the two constructors of
  `Value`; `detach().cpu().numpy()` and `np.array(...)` both preserve
  shape, dtype and content, so both map to the identity on the payload.
* `pathlib.PurePosixPath` becomes `PurePath` (absolute flag + normalized
  components: empty and "." components dropped, as pathlib does).
* the filesystem becomes an explicit `FS` state threaded through the call:
  a set of created directories and a map from paths to written file
  contents.  Serialized byte sizes are not modeled at the byte level; a
  nominal size (8 bytes per scalar element) stands in, and no claim
  depends on it.
* exceptions become `Except PyError`; the single top-level handler of
  `save_smpl` turns an error `e` into the tuple `("", "SaveSMPL failed: "
  ++ str(e))`.
-/

set_option maxHeartbeats 1000000
set_option maxRecDepth 4000

namespace SaveSmplNode

/-- A plain multi-dimensional numeric array (numpy `ndarray`): shape, a
dtype tag, and the flat element payload.  Element values are opaque to the
exporter, which never inspects them. -/
structure NDArray where
  shape : List Nat
  dtype : String
  data : List Int
deriving DecidableEq

/-- Total number of scalar elements of an array. -/
def NDArray.numel (a : NDArray) : Nat :=
  a.data.length

/-- A value of the `"global"` parameter dictionary: either a torch tensor
(possibly device-resident and gradient-tracking, neither of which affects
the stored numbers) or an already-plain array-like value. -/
inductive Value where
  | tensor (a : NDArray)
  | plain (a : NDArray)
deriving DecidableEq

/-- The conversion at source lines 67–71 and 87–91:
`value.detach().cpu().numpy()` for tensors, `np.array(value)` otherwise.
Both preserve shape, dtype and content bit-for-bit for array inputs. -/
def Value.toNumpy : Value → NDArray
  | .tensor a => a
  | .plain a => a

/-- Python dict lookup on an association list (first match; real dicts
keep keys unique). -/
def lookupD {κ α : Type} [DecidableEq κ] : List (κ × α) → κ → Option α
  | [], _ => none
  | kv :: rest, key => if kv.1 = key then some kv.2 else lookupD rest key

/-- The Python exceptions `save_smpl` can raise internally. -/
inductive PyError where
  | valueError (msg : String)
  | keyError (msg : String)
  | indexError (msg : String)
  | fileNotFoundError (msg : String)
deriving DecidableEq

/-- `str(e)` as interpolated at source line 116.  For `KeyError`, `str(e)`
is `repr(args[0])`; the messages raised here contain single quotes
(`\x27`), so `repr` delimits them with double quotes. -/
def PyError.toStr : PyError → String
  | .valueError m => m
  | .keyError m => "\"" ++ m ++ "\""
  | .indexError m => m
  | .fileNotFoundError m => m

/-- Split a character list at every occurrence of `c` (the semantics of
Python `str.split(c)` for a one-character separator). -/
def splitOnChar (c : Char) : List Char → List (List Char)
  | [] => [[]]
  | x :: xs =>
      match splitOnChar c xs with
      | [] => if x = c then [[], []] else [[x]]
      | h :: t => if x = c then [] :: h :: t else (x :: h) :: t

/-- Python `str.startswith`, on the character lists. -/
def strStartsWith (s pre : String) : Bool :=
  pre.toList.isPrefixOf s.toList

/-- Whether `sub` occurs as a contiguous substring of `l`. -/
def occursIn (sub : List Char) : List Char → Bool
  | [] => sub.isEmpty
  | c :: rest => sub.isPrefixOf (c :: rest) || occursIn sub rest

/-- Python `sub in s`: substring occurrence. -/
def strMentions (s sub : String) : Bool :=
  occursIn sub.toList s.toList

/-- `pathlib.PurePosixPath`: an absolute flag plus normalized components
(no empty and no "." components, as pathlib drops both). -/
structure PurePath where
  absolute : Bool
  parts : List String
deriving DecidableEq

/-- `pathlib.Path(s)` for a POSIX path string. -/
def parsePath (s : String) : PurePath :=
  { absolute := strStartsWith s "/",
    parts := ((splitOnChar '/' s.toList).map String.mk).filter
      (fun c => !(c == "") && !(c == ".")) }

/-- `Path.name`: the final component, or `""` when there is none (the
paths ".", "" and "/").  A final ".." component is a regular name in
pathlib (`PurePosixPath("a/..").name` is `".."`). -/
def PurePath.name (p : PurePath) : String :=
  match p.parts.getLast? with
  | none => ""
  | some c => c

/-- `str(Path)` for POSIX paths (the empty relative path prints as "."). -/
def PurePath.toStr (p : PurePath) : String :=
  if p.absolute then "/" ++ String.intercalate "/" p.parts
  else if p.parts.isEmpty then "."
  else String.intercalate "/" p.parts

/-- `Path.parent`: drop the final component. -/
def PurePath.parent (p : PurePath) : PurePath :=
  { p with parts := p.parts.dropLast }

/-- CPython `PurePath.suffix` of a file name: `name[i:]` for the last dot
position `i` when `0 < i < len(name) - 1`, else `""` (so hidden files like
".bashrc" and trailing-dot names have no suffix). -/
def suffixOfName (n : String) : String :=
  let cs := n.toList
  if cs.contains '.' then
    let tail := cs.reverse.takeWhile (fun c => !(c == '.'))
    let i := cs.length - 1 - tail.length
    if 0 < i && 0 < tail.length then String.mk ('.' :: tail.reverse) else ""
  else ""

/-- `Path.suffix`. -/
def PurePath.suffix (p : PurePath) : String :=
  suffixOfName p.name

/-- A nominal `repr(Path)` used in pathlib error text. -/
def reprPurePath (p : PurePath) : String :=
  "PosixPath(\x27" ++ p.toStr ++ "\x27)"

/-- The path produced by `with_suffix(suf)` when the current suffix is
empty and the name is non-empty: the suffix is appended to the name.
(Total helper; the exception case lives in `fixSuffix`.) -/
def fixSuffixPath (p : PurePath) (suf : String) : PurePath :=
  if suffixOfName p.name = "" then
    { p with parts := p.parts.dropLast ++ [p.name ++ suf] }
  else p

/-- Source lines 61–64: `if path.suffix == "": path = path.with_suffix(suf)`.
CPython `with_suffix` raises `ValueError` when the path has an empty name
(the paths `Path(".")`, `Path("")` and `Path("/")`); a path ending in
".." has the non-empty name ".." and gets the suffix appended to it
(`Path("a/..").with_suffix(".npz")` is `Path("a/...npz")`). -/
def fixSuffix (p : PurePath) (suf : String) : Except PyError PurePath :=
  if suffixOfName p.name = "" then
    if p.name = "" then
      .error (.valueError (reprPurePath p ++ " has an empty name"))
    else .ok (fixSuffixPath p suf)
  else .ok p

/-- Python `str.endswith`, on the character lists. -/
def strEndsWith (s post : String) : Bool :=
  post.toList.isSuffixOf s.toList

/-- `np.savez(file, ...)` appends ".npz" to `str(file)` when the string
does not already end in ".npz".  Since "/" cannot occur inside a
component, the string ends in ".npz" exactly when the final component
does; for an empty `parts` the string is "." or "/" and numpy opens
"..npz" resp. "/.npz". -/
def savezTarget (p : PurePath) : PurePath :=
  match p.parts.getLast? with
  | none => { p with parts := [if p.absolute then ".npz" else "..npz"] }
  | some last =>
      if strEndsWith last ".npz" then p
      else { p with parts := p.parts.dropLast ++ [last ++ ".npz"] }

/-- The record written to the object (pkl) file: source lines 75–94. -/
structure PredRecord where
  smpl_params_global : List (String × NDArray)
  smpl_params_incam : List (String × NDArray)
deriving DecidableEq

/-- Contents of a file written by the exporter. -/
inductive FileContent where
  | npz (entries : List (String × NDArray))
  | pkl (record : PredRecord) (protocol : Nat)
deriving DecidableEq

/-- Nominal on-disk size: 8 bytes per scalar element.  No claim depends on
file sizes; this only feeds the "(x.y KB)" fragments of the info string. -/
def fileSizeBytes : FileContent → Nat
  | .npz entries => 8 * (entries.map (fun kv => kv.2.numel)).sum
  | .pkl r _ =>
      8 * ((r.smpl_params_global.map (fun kv => kv.2.numel)).sum
        + (r.smpl_params_incam.map (fun kv => kv.2.numel)).sum)

/-- The filesystem state visible to one `save_smpl` call: the process
working directory (absolute, as `os.getcwd` returns), the set of created
directories, and the written files. -/
structure FS where
  cwd : List String
  dirs : List PurePath
  files : List (PurePath × FileContent)
deriving DecidableEq

/-- An empty filesystem rooted at "/". -/
def FS.init : FS :=
  { cwd := [], dirs := [], files := [] }

/-- All ancestor directories of a path (itself included). -/
def pathAncestors (p : PurePath) : List PurePath :=
  (List.range (p.parts.length + 1)).map
    (fun i => { absolute := p.absolute, parts := p.parts.take i })

/-- `path.mkdir(parents=True, exist_ok=True)`: create the directory and
any missing ancestors; idempotent. -/
def FS.mkdirParents (fs : FS) (p : PurePath) : FS :=
  { fs with dirs := (fs.dirs ++ pathAncestors p).dedup }

/-- Create or silently overwrite the file at `p`. -/
def FS.writeFile (fs : FS) (p : PurePath) (c : FileContent) : FS :=
  { fs with files := (fs.files.filter (fun f => !decide (f.1 = p))) ++ [(p, c)] }

/-- `path.stat().st_size`: the file's size, or `FileNotFoundError`. -/
def FS.statSize (fs : FS) (p : PurePath) : Except PyError Nat :=
  match lookupD fs.files p with
  | some c => .ok (fileSizeBytes c)
  | none => .error (.fileNotFoundError ("No such file or directory: " ++ reprPurePath p))

/-- `Path.absolute()`: prefix the working directory onto a relative path
(no normalization). -/
def PurePath.absoluteIn (p : PurePath) (cwd : List String) : PurePath :=
  if p.absolute then p else { absolute := true, parts := cwd ++ p.parts }

/-- Source lines 66–71: convert every entry of `global_params` to numpy. -/
def toNpParams (global_params : List (String × Value)) : List (String × NDArray) :=
  global_params.map (fun kv => (kv.1, kv.2.toNumpy))

/-- The four required parameter names (source line 80). -/
def requiredKeys : List String :=
  ["body_pose", "global_orient", "transl", "betas"]

/-- The loop body at source lines 82–91 for one required key: use the
converted value when present, otherwise fall back to re-reading and
re-converting the raw value, raising `KeyError` when the key is absent
from `global_params` too. -/
def resolveKey (global_params : List (String × Value))
    (np_params : List (String × NDArray)) (key : String) :
    Except PyError NDArray :=
  match lookupD np_params key with
  | some arr => .ok arr
  | none =>
      match lookupD global_params key with
      | none => .error (.keyError ("\x27global\x27 に \x27" ++ key ++ "\x27 が含まれていません。"))
      | some val => .ok val.toNumpy

/-- Resolve a list of keys in order, stopping at the first failure
(the loop at source lines 81–94 raises out of the loop). -/
def buildPredDict (global_params : List (String × Value))
    (np_params : List (String × NDArray)) :
    List String → Except PyError (List (String × NDArray))
  | [] => .ok []
  | k :: ks =>
      match resolveKey global_params np_params k with
      | .error e => .error e
      | .ok arr =>
          match buildPredDict global_params np_params ks with
          | .error e => .error e
          | .ok rest => .ok ((k, arr) :: rest)

/-- Source lines 75–94: build `pred_np`.  Lines 93–94 assign the same
resolved array to both namespaces, so both fields hold the same dict. -/
def buildPred (global_params : List (String × Value))
    (np_params : List (String × NDArray)) : Except PyError PredRecord :=
  match buildPredDict global_params np_params requiredKeys with
  | .error e => .error e
  | .ok d => .ok { smpl_params_global := d, smpl_params_incam := d }

/-- `pickle.HIGHEST_PROTOCOL` (5 on the Python 3 versions this targets). -/
def pickleHighestProtocol : Nat := 5

/-- Source line 99: `pred_np["smpl_params_global"]["body_pose"].shape[0]`
(`KeyError` if absent, `IndexError` on a 0-d array). -/
def numFramesOf (pred : PredRecord) : Except PyError Nat :=
  match lookupD pred.smpl_params_global "body_pose" with
  | none => .error (.keyError "\x27body_pose\x27")
  | some arr =>
      match arr.shape with
      | [] => .error (.indexError "tuple index out of range")
      | n :: _ => .ok n

/-- Python `"%.1f" % (bytes / 1024)` rendering (nominal: truncation
instead of float rounding; only used inside the info string, which no
claim inspects at this precision). -/
def kbString (bytes : Nat) : String :=
  toString (bytes / 1024) ++ "." ++ toString (bytes * 10 / 1024 % 10)

/-- The body of the `try:` block, source lines 46–113.  Returns either the
raised exception or the success triple (absolute npz path, info string,
frame count), together with the filesystem state as left behind at that
point (side effects before an exception persist). -/
def save_smpl_core (smpl_params : List (String × List (String × Value)))
    (npz_output_path pkl_output_path : String) (fs : FS) :
    Except PyError (String × String × Nat) × FS :=
  match lookupD smpl_params "global" with
  | none => (.error (.valueError "smpl_params に \x27global\x27 が含まれていません。"), fs)
  | some global_params =>
    let npz0 := parsePath npz_output_path
    let pkl0 := parsePath pkl_output_path
    let fs1 := (fs.mkdirParents npz0.parent).mkdirParents pkl0.parent
    match fixSuffix npz0 ".npz" with
    | .error e => (.error e, fs1)
    | .ok npz_path =>
      match fixSuffix pkl0 ".pkl" with
      | .error e => (.error e, fs1)
      | .ok pkl_path =>
        let np_params := toNpParams global_params
        let fs2 := fs1.writeFile (savezTarget npz_path) (.npz np_params)
        match buildPred global_params np_params with
        | .error e => (.error e, fs2)
        | .ok pred_np =>
          let fs3 := fs2.writeFile pkl_path (.pkl pred_np pickleHighestProtocol)
          match numFramesOf pred_np with
          | .error e => (.error e, fs3)
          | .ok num_frames =>
            match fs3.statSize npz_path with
            | .error e => (.error e, fs3)
            | .ok sizeNpz =>
              match fs3.statSize pkl_path with
              | .error e => (.error e, fs3)
              | .ok sizePkl =>
                let info := "SaveSMPL Complete\n"
                  ++ "NPZ: " ++ npz_path.toStr ++ " (" ++ kbString sizeNpz ++ " KB)\n"
                  ++ "PKL: " ++ pkl_path.toStr ++ " (" ++ kbString sizePkl ++ " KB)\n"
                  ++ "Frames: " ++ toString num_frames ++ "\n"
                (.ok ((npz_path.absoluteIn fs.cwd).toStr, info, num_frames), fs3)

/-- `SaveSMPL.save_smpl`: the whole method, source lines 39–120.  The
single `except Exception` handler turns any raised error into the tuple
`("", "SaveSMPL failed: " + str(e))`; the routine itself never raises. -/
def save_smpl (smpl_params : List (String × List (String × Value)))
    (npz_output_path pkl_output_path : String) (fs : FS) :
    (String × String) × FS :=
  match save_smpl_core smpl_params npz_output_path pkl_output_path fs with
  | (.ok (p, info, _), fs2) => ((p, info), fs2)
  | (.error e, fs2) => (("", "SaveSMPL failed: " ++ e.toStr), fs2)

/-! ### Concrete fixtures used by witnesses and counterexamples -/

/-- A small concrete array. -/
def ndW : NDArray :=
  { shape := [2], dtype := "float32", data := [7, 8] }

/-- Another small concrete array with a different shape and dtype. -/
def ndW2 : NDArray :=
  { shape := [2, 3], dtype := "float64", data := [1, 2, 3, 4, 5, 6] }

/-- A parameter set holding only `body_pose`. -/
def gpW : List (String × Value) :=
  [("body_pose", Value.plain ndW)]

/-- A bundle without the `"global"` key. -/
def bundleNoGlobal : List (String × List (String × Value)) :=
  [("other", [])]

/-- A bundle whose `"global"` namespace is empty (all four required keys
missing). -/
def bundleEmptyGlobal : List (String × List (String × Value)) :=
  [("global", [])]

/-- A parameter set with the first three required keys but no `betas`. -/
def gpNoBetas : List (String × Value) :=
  [("body_pose", Value.plain ndW), ("global_orient", Value.tensor ndW2),
   ("transl", Value.plain ndW)]

/-- Bundle around `gpNoBetas`. -/
def bundleNoBetas : List (String × List (String × Value)) :=
  [("global", gpNoBetas)]

/-- A complete parameter set: all four required keys (one tensor-backed)
plus an extra fifth key. -/
def gpFull : List (String × Value) :=
  [("body_pose", Value.plain ndW), ("global_orient", Value.tensor ndW2),
   ("transl", Value.plain ndW), ("betas", Value.plain ndW2),
   ("extra", Value.tensor ndW)]

/-- Bundle around `gpFull`. -/
def bundleFull : List (String × List (String × Value)) :=
  [("global", gpFull)]

/-- The record dict the exporter resolves from `gpFull`. -/
def dFull : List (String × NDArray) :=
  [("body_pose", ndW), ("global_orient", ndW2), ("transl", ndW), ("betas", ndW2)]

/-- The `PredRecord` the exporter writes for `bundleFull`. -/
def recFull : PredRecord :=
  { smpl_params_global := dFull, smpl_params_incam := dFull }

/-- The archive entries the exporter writes for `bundleFull` (all five
keys, the extra one included). -/
def npzFull : List (String × NDArray) :=
  [("body_pose", ndW), ("global_orient", ndW2), ("transl", ndW), ("betas", ndW2),
   ("extra", ndW)]

/-- `[0, 1, ..., n-1]` as integers. -/
def intRange (n : Nat) : List Int :=
  (List.range n).map (fun i => (i : Int))

/-- `body_pose` of shape `(5, 24, 3)` with pairwise distinct entries. -/
def bp6 : NDArray :=
  { shape := [5, 24, 3], dtype := "float32", data := intRange 360 }

/-- `global_orient` of shape `(5, 3)`. -/
def go6 : NDArray :=
  { shape := [5, 3], dtype := "float32", data := (intRange 15).map (fun i => i + 1000) }

/-- `transl` of shape `(5, 3)`. -/
def tr6 : NDArray :=
  { shape := [5, 3], dtype := "float32", data := (intRange 15).map (fun i => i + 2000) }

/-- `betas` of shape `(10,)`. -/
def be6 : NDArray :=
  { shape := [10], dtype := "float32", data := (intRange 10).map (fun i => i + 3000) }

/-- The round-trip parameter set of claim C6 (plain, non-tensor arrays). -/
def gp6 : List (String × Value) :=
  [("body_pose", Value.plain bp6), ("global_orient", Value.plain go6),
   ("transl", Value.plain tr6), ("betas", Value.plain be6)]

/-- Bundle around `gp6`. -/
def bundle6 : List (String × List (String × Value)) :=
  [("global", gp6)]

/-! ### Basic lemmas about the embedding -/

theorem lookupD_toNpParams (gp : List (String × Value)) (k : String) :
    lookupD (toNpParams gp) k = (lookupD gp k).map Value.toNumpy := by
  induction gp with
  | nil => rfl
  | cons kv rest ih =>
      simp only [toNpParams, List.map_cons, lookupD] at *
      split <;> simp [*]

theorem toNpParams_keys (gp : List (String × Value)) :
    (toNpParams gp).map Prod.fst = gp.map Prod.fst := by
  simp [toNpParams]

theorem mkdirParents_files (fs : FS) (p : PurePath) :
    (fs.mkdirParents p).files = fs.files := rfl

theorem mkdirParents_cwd (fs : FS) (p : PurePath) :
    (fs.mkdirParents p).cwd = fs.cwd := rfl

theorem writeFile_files (fs : FS) (p : PurePath) (c : FileContent) :
    (fs.writeFile p c).files
      = (fs.files.filter (fun f => !decide (f.1 = p))) ++ [(p, c)] := rfl

theorem fixSuffix_ok_of_name_ne (p : PurePath) (suf : String) (h : p.name ≠ "") :
    fixSuffix p suf = .ok (fixSuffixPath p suf) := by
  unfold fixSuffix fixSuffixPath
  split <;> simp_all

theorem fixSuffixPath_parts (p : PurePath) (suf : String) (h : suffixOfName p.name = "") :
    (fixSuffixPath p suf).parts = p.parts.dropLast ++ [p.name ++ suf] := by
  unfold fixSuffixPath
  rw [if_pos h]

theorem fixSuffixPath_absolute (p : PurePath) (suf : String) :
    (fixSuffixPath p suf).absolute = p.absolute := by
  unfold fixSuffixPath
  split <;> rfl

theorem strStartsWith_append (a b : String) : strStartsWith (a ++ b) a = true := by
  unfold strStartsWith
  rw [List.isPrefixOf_iff_prefix]
  simp only [String.toList]
  rw [String.data_append]
  exact List.prefix_append _ _

theorem strEndsWith_append (a b : String) : strEndsWith (a ++ b) b = true := by
  unfold strEndsWith
  rw [List.isSuffixOf_iff_suffix]
  simp only [String.toList]
  rw [String.data_append]
  exact List.suffix_append _ _

theorem savezTarget_of_endsWith (p : PurePath) (last : String)
    (h : p.parts.getLast? = some last) (he : strEndsWith last ".npz" = true) :
    savezTarget p = p := by
  unfold savezTarget
  rw [h]
  simp [he]

theorem savezTarget_fixSuffixPath (p : PurePath) (h : suffixOfName p.name = "") :
    savezTarget (fixSuffixPath p ".npz") = fixSuffixPath p ".npz" := by
  apply savezTarget_of_endsWith _ (p.name ++ ".npz")
  · rw [fixSuffixPath_parts p ".npz" h]
    exact List.getLast?_concat _
  · exact strEndsWith_append _ _

theorem append_npz_ne_append_pkl (a b : String) : a ++ ".npz" ≠ b ++ ".pkl" := by
  intro h
  have h2 := congrArg String.data h
  rw [String.data_append, String.data_append] at h2
  have h3 := congrArg List.getLast? h2
  rw [List.getLast?_append_of_ne_nil _ (by decide),
    List.getLast?_append_of_ne_nil _ (by decide)] at h3
  exact absurd h3 (by decide)

theorem fixSuffixPath_npz_ne_pkl (p q : PurePath)
    (hp : suffixOfName p.name = "") (hq : suffixOfName q.name = "") :
    fixSuffixPath p ".npz" ≠ fixSuffixPath q ".pkl" := by
  intro h
  have h2 := congrArg PurePath.parts h
  rw [fixSuffixPath_parts p _ hp, fixSuffixPath_parts q _ hq] at h2
  have h3 := congrArg List.getLast? h2
  rw [List.getLast?_concat, List.getLast?_concat] at h3
  exact append_npz_ne_append_pkl p.name q.name (by injection h3)

theorem resolveKey_error_of_none (gp : List (String × Value)) (k : String)
    (hn : lookupD gp k = none) :
    resolveKey gp (toNpParams gp) k
      = .error (.keyError ("\x27global\x27 に \x27" ++ k ++ "\x27 が含まれていません。")) := by
  simp [resolveKey, lookupD_toNpParams, hn]

theorem resolveKey_ok_of_some (gp : List (String × Value)) (k : String) (v : Value)
    (hv : lookupD gp k = some v) :
    resolveKey gp (toNpParams gp) k = .ok v.toNumpy := by
  simp [resolveKey, lookupD_toNpParams, hv]

theorem buildPredDict_ok_keys (gp : List (String × Value))
    (np : List (String × NDArray)) (ks : List String) (d : List (String × NDArray))
    (h : buildPredDict gp np ks = .ok d) : d.map Prod.fst = ks := by
  induction ks generalizing d with
  | nil =>
      simp only [buildPredDict] at h
      cases h
      rfl
  | cons k ks ih =>
      simp only [buildPredDict] at h
      cases hr : resolveKey gp np k with
      | error e => rw [hr] at h; cases h
      | ok arr =>
          rw [hr] at h
          cases hrest : buildPredDict gp np ks with
          | error e => rw [hrest] at h; cases h
          | ok rest =>
              rw [hrest] at h
              cases h
              simp [ih rest hrest]

theorem buildPredDict_ok_of_present (gp : List (String × Value)) (ks : List String)
    (h : ∀ k ∈ ks, (lookupD gp k).isSome = true) :
    ∃ d, buildPredDict gp (toNpParams gp) ks = .ok d := by
  induction ks with
  | nil => exact ⟨[], rfl⟩
  | cons k ks ih =>
      obtain ⟨v, hv⟩ := Option.isSome_iff_exists.mp (h k (by simp))
      obtain ⟨d, hd⟩ := ih (fun k2 hk2 => h k2 (by simp [hk2]))
      refine ⟨(k, v.toNumpy) :: d, ?_⟩
      simp [buildPredDict, resolveKey_ok_of_some gp k v hv, hd]

theorem buildPredDict_error_of_missing (gp : List (String × Value)) (ks : List String)
    (k : String) (hk : k ∈ ks) (hn : lookupD gp k = none) :
    ∃ e, buildPredDict gp (toNpParams gp) ks = .error e := by
  induction ks with
  | nil => cases hk
  | cons k2 ks ih =>
      cases hr : resolveKey gp (toNpParams gp) k2 with
      | error e => exact ⟨e, by simp [buildPredDict, hr]⟩
      | ok arr =>
          rcases List.mem_cons.mp hk with heq | hmem
          · subst heq
            rw [resolveKey_error_of_none gp k hn] at hr
            cases hr
          · obtain ⟨e, he⟩ := ih hmem
            exact ⟨e, by simp [buildPredDict, hr, he]⟩

theorem buildPred_ok_elim (gp : List (String × Value)) (np : List (String × NDArray))
    (pred : PredRecord) (h : buildPred gp np = .ok pred) :
    pred.smpl_params_global = pred.smpl_params_incam
      ∧ buildPredDict gp np requiredKeys = .ok pred.smpl_params_global := by
  unfold buildPred at h
  cases hd : buildPredDict gp np requiredKeys with
  | error e => rw [hd] at h; cases h
  | ok d =>
      rw [hd] at h
      cases h
      exact ⟨rfl, rfl⟩

theorem absoluteIn_absolute (p : PurePath) (cwd : List String) :
    (p.absoluteIn cwd).absolute = true := by
  unfold PurePath.absoluteIn
  split
  · assumption
  · rfl

theorem toStr_ne_empty_of_absolute (p : PurePath) (h : p.absolute = true) :
    p.toStr ≠ "" := by
  intro hc
  unfold PurePath.toStr at hc
  rw [if_pos h] at hc
  have hlen := congrArg String.length hc
  rw [String.length_append] at hlen
  have h1 : ("/" : String).length = 1 := rfl
  have h0 : ("" : String).length = 0 := rfl
  omega

theorem absoluteIn_toStr_ne_empty (p : PurePath) (cwd : List String) :
    (p.absoluteIn cwd).toStr ≠ "" :=
  toStr_ne_empty_of_absolute _ (absoluteIn_absolute p cwd)

theorem save_smpl_of_core_error (params : List (String × List (String × Value)))
    (s1 s2 : String) (fs fs2 : FS) (e : PyError)
    (h : save_smpl_core params s1 s2 fs = (.error e, fs2)) :
    save_smpl params s1 s2 fs = (("", "SaveSMPL failed: " ++ e.toStr), fs2) := by
  unfold save_smpl
  rw [h]

theorem save_smpl_of_core_ok (params : List (String × List (String × Value)))
    (s1 s2 : String) (fs fs2 : FS) (p i : String) (n : Nat)
    (h : save_smpl_core params s1 s2 fs = (.ok (p, i, n), fs2)) :
    save_smpl params s1 s2 fs = ((p, i), fs2) := by
  unfold save_smpl
  rw [h]

theorem save_smpl_snd (params : List (String × List (String × Value)))
    (s1 s2 : String) (fs : FS) :
    (save_smpl params s1 s2 fs).2 = (save_smpl_core params s1 s2 fs).2 := by
  unfold save_smpl
  rcases h : save_smpl_core params s1 s2 fs with ⟨r, fs2⟩
  cases r with
  | error e => rfl
  | ok v => rcases v with ⟨p, i, n⟩; rfl

theorem save_smpl_core_cases (params : List (String × List (String × Value)))
    (s1 s2 : String) (fs : FS) :
    (∃ e fs2, save_smpl_core params s1 s2 fs = (.error e, fs2))
    ∨ (∃ q i n fs2, save_smpl_core params s1 s2 fs
        = (.ok ((PurePath.absoluteIn q fs.cwd).toStr, i, n), fs2)) := by
  unfold save_smpl_core
  cases hg : lookupD params "global" with
  | none => exact .inl ⟨_, _, rfl⟩
  | some gp =>
      dsimp only
      cases hf1 : fixSuffix (parsePath s1) ".npz" with
      | error e => exact .inl ⟨_, _, rfl⟩
      | ok npz_path =>
          dsimp only
          cases hf2 : fixSuffix (parsePath s2) ".pkl" with
          | error e => exact .inl ⟨_, _, rfl⟩
          | ok pkl_path =>
              dsimp only
              cases hbp : buildPred gp (toNpParams gp) with
              | error e => exact .inl ⟨_, _, rfl⟩
              | ok pred =>
                  dsimp only
                  cases hnf : numFramesOf pred with
                  | error e => exact .inl ⟨_, _, rfl⟩
                  | ok nf =>
                      dsimp only
                      repeat' split
                      all_goals
                        first
                        | exact .inl ⟨_, _, rfl⟩
                        | exact .inr ⟨npz_path, _, _, _, rfl⟩

theorem save_smpl_core_ok_ne (params : List (String × List (String × Value)))
    (s1 s2 : String) (fs : FS) (p i : String) (n : Nat) (fs2 : FS)
    (h : save_smpl_core params s1 s2 fs = (.ok (p, i, n), fs2)) : p ≠ "" := by
  rcases save_smpl_core_cases params s1 s2 fs with ⟨e, fs3, he⟩ | ⟨q, i2, n2, fs3, hk⟩
  · rw [h] at he
    simp at he
  · rw [h] at hk
    simp only [Prod.mk.injEq, Except.ok.injEq] at hk
    obtain ⟨⟨hp, _⟩, _⟩ := hk
    rw [hp]
    exact absoluteIn_toStr_ne_empty _ _

theorem save_smpl_core_files (params : List (String × List (String × Value)))
    (s1 s2 : String) (fs : FS) (hfs : fs.files = []) :
    (save_smpl_core params s1 s2 fs).2.files = []
    ∨ (∃ gp t, lookupD params "global" = some gp
        ∧ (save_smpl_core params s1 s2 fs).2.files
            = [(t, FileContent.npz (toNpParams gp))])
    ∨ (∃ gp t pk d, lookupD params "global" = some gp
        ∧ buildPredDict gp (toNpParams gp) requiredKeys = .ok d
        ∧ (save_smpl_core params s1 s2 fs).2.files
            = (([((t : PurePath), FileContent.npz (toNpParams gp))]).filter
                (fun f => !decide (f.1 = pk)))
              ++ [(pk, FileContent.pkl ⟨d, d⟩ pickleHighestProtocol)]) := by
  unfold save_smpl_core
  cases hg : lookupD params "global" with
  | none => left; exact hfs
  | some gp =>
      dsimp only
      cases hf1 : fixSuffix (parsePath s1) ".npz" with
      | error e => left; simpa [mkdirParents_files] using hfs
      | ok npz_path =>
          dsimp only
          cases hf2 : fixSuffix (parsePath s2) ".pkl" with
          | error e => left; simpa [mkdirParents_files] using hfs
          | ok pkl_path =>
              dsimp only
              unfold buildPred
              cases hbd : buildPredDict gp (toNpParams gp) requiredKeys with
              | error e =>
                  right; left
                  refine ⟨gp, savezTarget npz_path, by simp [hg], ?_⟩
                  dsimp only
                  simp [FS.writeFile, mkdirParents_files, hfs]
              | ok d =>
                  right; right
                  refine ⟨gp, savezTarget npz_path, pkl_path, d, by simp [hg],
                    by simp [hbd], ?_⟩
                  dsimp only
                  repeat' split
                  all_goals
                    simp [FS.writeFile, mkdirParents_files, hfs]

/-! ### The claims -/

/-- Claim C1: for every input (any `smpl_params` dictionary and any two
path strings) `save_smpl` never raises (it is a total function of its
inputs); whenever any step of the body fails with an exception `e`, it
returns the two-element tuple `("", "SaveSMPL failed: " ++ str(e))`, whose
second element begins with the prefix "SaveSMPL failed: "; and the first
element is empty exactly when some step failed. -/
theorem c1_top_level_catch (params : List (String × List (String × Value)))
    (s1 s2 : String) (fs : FS) :
    (∀ e fs2, save_smpl_core params s1 s2 fs = (.error e, fs2) →
      save_smpl params s1 s2 fs = (("", "SaveSMPL failed: " ++ e.toStr), fs2)
        ∧ strStartsWith ("SaveSMPL failed: " ++ e.toStr) "SaveSMPL failed: " = true)
    ∧ ((save_smpl params s1 s2 fs).1.1 = ""
        ↔ ∃ e fs2, save_smpl_core params s1 s2 fs = (.error e, fs2)) := by
  constructor
  · intro e fs2 h
    exact ⟨save_smpl_of_core_error params s1 s2 fs fs2 e h, strStartsWith_append _ _⟩
  · constructor
    · intro h0
      rcases save_smpl_core_cases params s1 s2 fs with ⟨e, fs2, he⟩ | ⟨q, i, n, fs2, hk⟩
      · exact ⟨e, fs2, he⟩
      · exfalso
        have hres := save_smpl_of_core_ok params s1 s2 fs fs2 _ i n hk
        rw [hres] at h0
        exact absoluteIn_toStr_ne_empty q fs.cwd h0
    · rintro ⟨e, fs2, he⟩
      rw [save_smpl_of_core_error params s1 s2 fs fs2 e he]

/-- Witness for C1 at a concrete failing input: an empty bundle fails and
yields exactly the prefixed error tuple. -/
theorem c1_witness :
    save_smpl [] "o/m" "p/m" FS.init
      = (("", "SaveSMPL failed: smpl_params に \x27global\x27 が含まれていません。"), FS.init) :=
  ((c1_top_level_catch [] "o/m" "p/m" FS.init).1
    (.valueError "smpl_params に \x27global\x27 が含まれていません。") FS.init rfl).1

/-- Claim C2: the fallback in the record-building step is dead code.  For
every parameter set reaching that step, the converted set has exactly the
same keys as the raw set, the fallback guard ("key absent from the
converted set but present in the raw set") is unsatisfiable, and the
`KeyError` for a key under examination fires exactly when that key is
absent from `global_params` — in which case it carries that key's name. -/
theorem c2_fallback_dead (gp : List (String × Value)) :
    (toNpParams gp).map Prod.fst = gp.map Prod.fst
    ∧ (∀ k : String, ¬(lookupD (toNpParams gp) k = none ∧ (lookupD gp k).isSome = true))
    ∧ (∀ k : String,
        (∃ e, resolveKey gp (toNpParams gp) k = .error e) ↔ lookupD gp k = none)
    ∧ (∀ k : String, lookupD gp k = none →
        resolveKey gp (toNpParams gp) k
          = .error (.keyError ("\x27global\x27 に \x27" ++ k ++ "\x27 が含まれていません。"))) := by
  refine ⟨toNpParams_keys gp, ?_, ?_, resolveKey_error_of_none gp⟩
  · rintro k ⟨hnone, hsome⟩
    rw [lookupD_toNpParams] at hnone
    obtain ⟨v, hv⟩ := Option.isSome_iff_exists.mp hsome
    rw [hv] at hnone
    simp at hnone
  · intro k
    constructor
    · rintro ⟨e, he⟩
      cases hl : lookupD gp k with
      | none => rfl
      | some v =>
          rw [resolveKey_ok_of_some gp k v hl] at he
          simp at he
    · intro hn
      exact ⟨_, resolveKey_error_of_none gp k hn⟩

/-- Witness for C2: on a set holding only `body_pose`, resolving `betas`
fails with the `KeyError` naming `betas`. -/
theorem c2_witness :
    resolveKey gpW (toNpParams gpW) "betas"
      = .error (.keyError "\x27global\x27 に \x27betas\x27 が含まれていません。") :=
  (c2_fallback_dead gpW).2.2.2 "betas" rfl

/-- Claim C3: a bundle without the key "global" makes `save_smpl` return
an empty first element and the error message naming the missing key
("global" occurs in the message), and the filesystem is left exactly as it
was: no directory created, no file written, regardless of the paths. -/
theorem c3_missing_global (params : List (String × List (String × Value)))
    (s1 s2 : String) (fs : FS) (h : lookupD params "global" = none) :
    save_smpl params s1 s2 fs
      = (("", "SaveSMPL failed: smpl_params に \x27global\x27 が含まれていません。"), fs)
    ∧ strMentions "SaveSMPL failed: smpl_params に \x27global\x27 が含まれていません。"
        "global" = true := by
  refine ⟨?_, by decide⟩
  have hcore : save_smpl_core params s1 s2 fs
      = (.error (.valueError "smpl_params に \x27global\x27 が含まれていません。"), fs) := by
    unfold save_smpl_core
    rw [h]
  exact save_smpl_of_core_error params s1 s2 fs fs _ hcore

/-- Witness for C3 at a concrete bundle lacking "global". -/
theorem c3_witness :
    save_smpl bundleNoGlobal "output/motion" "output_pkl/motion" FS.init
      = (("", "SaveSMPL failed: smpl_params に \x27global\x27 が含まれていません。"), FS.init) :=
  (c3_missing_global bundleNoGlobal "output/motion" "output_pkl/motion" FS.init
    (by decide)).1

/-- Claim C4 as stated is false at this input: `bundleEmptyGlobal`'s
"global" namespace omits `betas` (its namespace is empty), the call does
return an empty first element and no object file, but the error message
does not name `betas` — it names `body_pose`, the first missing required
key examined by the loop. -/
theorem c4_as_stated_false :
    lookupD bundleEmptyGlobal "global" = some []
    ∧ lookupD ([] : List (String × Value)) "betas" = none
    ∧ (save_smpl bundleEmptyGlobal "o/m" "p/m" FS.init).1.1 = ""
    ∧ strMentions (save_smpl bundleEmptyGlobal "o/m" "p/m" FS.init).1.2 "betas" = false
    ∧ strMentions (save_smpl bundleEmptyGlobal "o/m" "p/m" FS.init).1.2 "body_pose" = true := by
  decide

/-- Claim C4 (amended): for every bundle whose "global" namespace contains
`body_pose`, `global_orient` and `transl` but omits `betas` — so `betas`
is the first missing required key — and whose two output paths have a
non-empty final component (so path normalization itself does not fail
first), `save_smpl` returns an empty first element and an error message
naming `betas`, and no object (pkl) file is written in that call. -/
theorem c4_missing_betas (params : List (String × List (String × Value)))
    (gp : List (String × Value)) (s1 s2 : String) (fs : FS)
    (hg : lookupD params "global" = some gp)
    (hbp : (lookupD gp "body_pose").isSome = true)
    (hgo : (lookupD gp "global_orient").isSome = true)
    (htr : (lookupD gp "transl").isSome = true)
    (hbe : lookupD gp "betas" = none)
    (h1n : (parsePath s1).name ≠ "")
    (h2n : (parsePath s2).name ≠ "")
    (hfs : fs.files = []) :
    (save_smpl params s1 s2 fs).1
      = ("", "SaveSMPL failed: \"\x27global\x27 に \x27betas\x27 が含まれていません。\"")
    ∧ strMentions (save_smpl params s1 s2 fs).1.2 "betas" = true
    ∧ ∀ (pth : PurePath) (rec : PredRecord) (prot : Nat),
        (pth, FileContent.pkl rec prot) ∉ (save_smpl params s1 s2 fs).2.files := by
  obtain ⟨v1, h1⟩ := Option.isSome_iff_exists.mp hbp
  obtain ⟨v2, h2⟩ := Option.isSome_iff_exists.mp hgo
  obtain ⟨v3, h3⟩ := Option.isSome_iff_exists.mp htr
  have hbd : buildPredDict gp (toNpParams gp) requiredKeys
      = .error (.keyError ("\x27global\x27 に \x27" ++ "betas" ++ "\x27 が含まれていません。")) := by
    simp [requiredKeys, buildPredDict,
      resolveKey_ok_of_some gp _ _ h1, resolveKey_ok_of_some gp _ _ h2,
      resolveKey_ok_of_some gp _ _ h3, resolveKey_error_of_none gp _ hbe]
  have hcore : save_smpl_core params s1 s2 fs
      = (.error (.keyError ("\x27global\x27 に \x27" ++ "betas" ++ "\x27 が含まれていません。")),
        ((fs.mkdirParents (parsePath s1).parent).mkdirParents (parsePath s2).parent).writeFile
          (savezTarget (fixSuffixPath (parsePath s1) ".npz"))
          (FileContent.npz (toNpParams gp))) := by
    unfold save_smpl_core
    rw [hg]
    dsimp only
    rw [fixSuffix_ok_of_name_ne _ _ h1n]
    dsimp only
    rw [fixSuffix_ok_of_name_ne _ _ h2n]
    dsimp only
    unfold buildPred
    rw [hbd]
  have hs := save_smpl_of_core_error _ _ _ _ _ _ hcore
  have hfst : (save_smpl params s1 s2 fs).1
      = ("", "SaveSMPL failed: \"\x27global\x27 に \x27betas\x27 が含まれていません。\"") := by
    rw [hs]
    rfl
  refine ⟨hfst, ?_, ?_⟩
  · rw [hfst]
    decide
  · intro pth rec prot
    rw [hs]
    simp [FS.writeFile, mkdirParents_files, hfs]

/-- Witness for the amended C4 at a concrete bundle with the three other
required keys present and `betas` absent. -/
theorem c4_witness :
    (save_smpl bundleNoBetas "o/m" "p/m" FS.init).1
      = ("", "SaveSMPL failed: \"\x27global\x27 に \x27betas\x27 が含まれていません。\"") :=
  (c4_missing_betas bundleNoBetas gpNoBetas "o/m" "p/m" FS.init (by decide) (by decide)
    (by decide) (by decide) (by decide) (by decide) (by decide) rfl).1

/-- Claim C5: for every run starting from a filesystem holding no files,
any object (pkl) file the call leaves on disk holds a record whose
`smpl_params_global` and `smpl_params_incam` namespaces are identical —
in particular element-wise identical at all four required keys. -/
theorem c5_namespaces_identical (params : List (String × List (String × Value)))
    (s1 s2 : String) (fs : FS) (hfs : fs.files = [])
    (pth : PurePath) (rec : PredRecord) (prot : Nat)
    (hmem : (pth, FileContent.pkl rec prot) ∈ (save_smpl params s1 s2 fs).2.files) :
    rec.smpl_params_global = rec.smpl_params_incam
    ∧ ∀ k ∈ requiredKeys,
        lookupD rec.smpl_params_global k = lookupD rec.smpl_params_incam k := by
  rw [save_smpl_snd] at hmem
  rcases save_smpl_core_files params s1 s2 fs hfs with
    h0 | ⟨gp, t, hg, h1⟩ | ⟨gp, t, pk, d, hg, hbd, h2⟩
  · rw [h0] at hmem
    cases hmem
  · rw [h1] at hmem
    simp at hmem
  · rw [h2] at hmem
    simp only [List.mem_append, List.mem_filter, List.mem_singleton] at hmem
    rcases hmem with ⟨hin, _⟩ | hin
    · simp at hin
    · simp only [Prod.mk.injEq, FileContent.pkl.injEq] at hin
      rw [hin.2.1]
      exact ⟨rfl, fun k _ => rfl⟩

/-- Witness for C5 at the concrete full bundle. -/
theorem c5_witness :
    recFull.smpl_params_global = recFull.smpl_params_incam :=
  (c5_namespaces_identical bundleFull "o/m" "p/m" FS.init rfl
    (parsePath "p/m.pkl") recFull pickleHighestProtocol (by decide)).1

/-- Claim C6 (round-trip): exporting the concrete bundle `bundle6` — plain
arrays `body_pose : (5,24,3)`, `global_orient : (5,3)`, `transl : (5,3)`,
`betas : (10,)` with pairwise distinct entries — to paths
"output/motion" and "output_pkl/motion" and reading both files back from
the filesystem yields arrays bit-for-bit equal to the originals, and the
info string reports a frame count of 5, the leading dimension of
`body_pose`. -/
theorem c6_roundtrip :
    lookupD (save_smpl bundle6 "output/motion" "output_pkl/motion" FS.init).2.files
        (parsePath "output/motion.npz")
      = some (FileContent.npz
          [("body_pose", bp6), ("global_orient", go6), ("transl", tr6), ("betas", be6)])
    ∧ lookupD (save_smpl bundle6 "output/motion" "output_pkl/motion" FS.init).2.files
        (parsePath "output_pkl/motion.pkl")
      = some (FileContent.pkl
          { smpl_params_global :=
              [("body_pose", bp6), ("global_orient", go6), ("transl", tr6), ("betas", be6)],
            smpl_params_incam :=
              [("body_pose", bp6), ("global_orient", go6), ("transl", tr6), ("betas", be6)] }
          pickleHighestProtocol)
    ∧ (save_smpl bundle6 "output/motion" "output_pkl/motion" FS.init).1.2
      = "SaveSMPL Complete\nNPZ: output/motion.npz (3.1 KB)\nPKL: output_pkl/motion.pkl (6.2 KB)\nFrames: 5\n"
    ∧ strMentions (save_smpl bundle6 "output/motion" "output_pkl/motion" FS.init).1.2
        "Frames: 5" = true
    ∧ bp6.shape.headI = 5 := by
  decide

/-- Claim C7: for every run starting from a filesystem holding no files,
any object (pkl) file the call leaves on disk holds exactly one record,
each of whose two namespaces carries exactly the four required keys in
order (no keys beyond the four appear), serialized with the highest
pickle protocol. -/
theorem c7_pkl_structure (params : List (String × List (String × Value)))
    (s1 s2 : String) (fs : FS) (hfs : fs.files = [])
    (pth : PurePath) (rec : PredRecord) (prot : Nat)
    (hmem : (pth, FileContent.pkl rec prot) ∈ (save_smpl params s1 s2 fs).2.files) :
    rec.smpl_params_global.map Prod.fst = requiredKeys
    ∧ rec.smpl_params_incam.map Prod.fst = requiredKeys
    ∧ prot = pickleHighestProtocol := by
  rw [save_smpl_snd] at hmem
  rcases save_smpl_core_files params s1 s2 fs hfs with
    h0 | ⟨gp, t, hg, h1⟩ | ⟨gp, t, pk, d, hg, hbd, h2⟩
  · rw [h0] at hmem
    cases hmem
  · rw [h1] at hmem
    simp at hmem
  · rw [h2] at hmem
    simp only [List.mem_append, List.mem_filter, List.mem_singleton] at hmem
    rcases hmem with ⟨hin, _⟩ | hin
    · simp at hin
    · simp only [Prod.mk.injEq, FileContent.pkl.injEq] at hin
      obtain ⟨-, hrec, hprot⟩ := hin
      rw [hrec]
      have hkeys := buildPredDict_ok_keys gp (toNpParams gp) requiredKeys d hbd
      exact ⟨hkeys, hkeys, hprot⟩

/-- Witness for C7 at the concrete full bundle: the written record's
namespaces carry exactly the four required keys, at protocol 5. -/
theorem c7_witness :
    recFull.smpl_params_global.map Prod.fst = requiredKeys
      ∧ recFull.smpl_params_incam.map Prod.fst = requiredKeys
      ∧ pickleHighestProtocol = pickleHighestProtocol :=
  c7_pkl_structure bundleFull "o/m" "p/m" FS.init rfl
    (parsePath "p/m.pkl") recFull pickleHighestProtocol (by decide)

/-- Claim C8: for every run starting from a filesystem holding no files,
any archive (npz) file the call leaves on disk holds exactly the
converted set: one named array per key of the "global" namespace
(including keys beyond the required four), each under its original key
name with shape, dtype and content preserved (`toNpParams` maps each
value through the content-preserving `Value.toNumpy`). -/
theorem c8_npz_contents (params : List (String × List (String × Value)))
    (s1 s2 : String) (fs : FS) (hfs : fs.files = [])
    (pth : PurePath) (entries : List (String × NDArray))
    (hmem : (pth, FileContent.npz entries) ∈ (save_smpl params s1 s2 fs).2.files) :
    ∃ gp, lookupD params "global" = some gp
      ∧ entries = toNpParams gp
      ∧ entries.map Prod.fst = gp.map Prod.fst := by
  rw [save_smpl_snd] at hmem
  rcases save_smpl_core_files params s1 s2 fs hfs with
    h0 | ⟨gp, t, hg, h1⟩ | ⟨gp, t, pk, d, hg, hbd, h2⟩
  · rw [h0] at hmem
    cases hmem
  · rw [h1] at hmem
    rw [List.mem_singleton] at hmem
    simp only [Prod.mk.injEq, FileContent.npz.injEq] at hmem
    exact ⟨gp, hg, hmem.2, hmem.2 ▸ toNpParams_keys gp⟩
  · rw [h2] at hmem
    simp only [List.mem_append, List.mem_filter, List.mem_singleton] at hmem
    rcases hmem with ⟨hin, _⟩ | hin
    · simp only [Prod.mk.injEq, FileContent.npz.injEq] at hin
      exact ⟨gp, hg, hin.2, hin.2 ▸ toNpParams_keys gp⟩
    · simp at hin

/-- Witness for C8 at the concrete full bundle: the archive holds all
five entries of the "global" namespace, the extra key included. -/
theorem c8_witness :
    ∃ gp, lookupD bundleFull "global" = some gp
      ∧ npzFull = toNpParams gp
      ∧ npzFull.map Prod.fst = gp.map Prod.fst :=
  c8_npz_contents bundleFull "o/m" "p/m" FS.init rfl
    (parsePath "o/m.npz") npzFull (by decide)

/-- Claim C9 as stated is false at this input: both output paths have an
empty extension ("." and "p/m"), the bundle is fully valid, yet no file is
created at any suffix-appended path — `with_suffix` raises `ValueError` on
the empty-name path "." and the call fails before writing anything. -/
theorem c9_as_stated_false :
    (parsePath ".").suffix = ""
    ∧ (parsePath "p/m").suffix = ""
    ∧ (save_smpl bundleFull "." "p/m" FS.init).1.1 = ""
    ∧ (save_smpl bundleFull "." "p/m" FS.init).2.files = [] := by
  decide

/-- Claim C9 (amended): for every valid bundle (containing "global" with
all four required keys) and every pair of output path strings with empty
extension whose final component is non-empty, `save_smpl` appends the
default suffixes before writing: the archive is created at the
".npz"-appended path and the object file at the ".pkl"-appended path
(e.g. "output/motion" and "output_pkl/motion" become "output/motion.npz"
and "output_pkl/motion.pkl"); paths that already carry an extension are
left unchanged by the suffix-normalization step. -/
theorem c9_default_suffixes (params : List (String × List (String × Value)))
    (gp : List (String × Value)) (s1 s2 : String) (fs : FS)
    (hg : lookupD params "global" = some gp)
    (hreq : ∀ k ∈ requiredKeys, (lookupD gp k).isSome = true)
    (h1s : (parsePath s1).suffix = "") (h1n : (parsePath s1).name ≠ "")
    (h2s : (parsePath s2).suffix = "") (h2n : (parsePath s2).name ≠ "") :
    (∃ d, buildPredDict gp (toNpParams gp) requiredKeys = .ok d
      ∧ (fixSuffixPath (parsePath s1) ".npz", FileContent.npz (toNpParams gp))
          ∈ (save_smpl params s1 s2 fs).2.files
      ∧ (fixSuffixPath (parsePath s2) ".pkl",
          FileContent.pkl { smpl_params_global := d, smpl_params_incam := d }
            pickleHighestProtocol)
          ∈ (save_smpl params s1 s2 fs).2.files)
    ∧ (∀ (p : PurePath) (suf : String), p.suffix ≠ "" → fixSuffix p suf = .ok p) := by
  constructor
  · obtain ⟨d, hd⟩ := buildPredDict_ok_of_present gp requiredKeys hreq
    have hne : fixSuffixPath (parsePath s1) ".npz" ≠ fixSuffixPath (parsePath s2) ".pkl" :=
      fixSuffixPath_npz_ne_pkl (parsePath s1) (parsePath s2) h1s h2s
    refine ⟨d, hd, ?_, ?_⟩ <;>
    · rw [save_smpl_snd]
      unfold save_smpl_core
      rw [hg]
      dsimp only
      rw [fixSuffix_ok_of_name_ne _ _ h1n]
      dsimp only
      rw [fixSuffix_ok_of_name_ne _ _ h2n]
      dsimp only
      unfold buildPred
      rw [hd]
      dsimp only
      rw [savezTarget_fixSuffixPath _ h1s]
      repeat' split
      all_goals
        simp [FS.writeFile, mkdirParents_files, List.mem_append, List.mem_filter, hne]
  · intro p suf hsuf
    have hsuf2 : suffixOfName p.name ≠ "" := hsuf
    unfold fixSuffix
    rw [if_neg hsuf2]

/-- Witness for the amended C9 at the spec's example paths: the archive
lands at "output/motion.npz". -/
theorem c9_witness :
    (parsePath "output/motion.npz", FileContent.npz (toNpParams gpFull))
      ∈ (save_smpl bundleFull "output/motion" "output_pkl/motion" FS.init).2.files := by
  obtain ⟨d, hd, hnpz, hpkl⟩ :=
    (c9_default_suffixes bundleFull gpFull "output/motion" "output_pkl/motion" FS.init
      (by decide) (by decide) (by decide) (by decide) (by decide) (by decide)).1
  exact hnpz

/-- Claim C10 as stated is false at this input: the bundle holds "global"
with (vacuously) convertible values and misses required keys, yet by the
time the failure tuple is returned no archive file exists anywhere — the
empty-name path "." makes suffix normalization fail before the archive
write. -/
theorem c10_as_stated_false :
    lookupD bundleEmptyGlobal "global" = some []
    ∧ ("betas" ∈ requiredKeys ∧ lookupD ([] : List (String × Value)) "betas" = none)
    ∧ (save_smpl bundleEmptyGlobal "." "p/m" FS.init).1.1 = ""
    ∧ (save_smpl bundleEmptyGlobal "." "p/m" FS.init).2.files = [] := by
  decide

/-- Claim C10 (amended): for every bundle containing "global" whose
namespace lacks one of the four required keys, provided both output paths
have a non-empty final component, the archive file has already been
created or overwritten — at the effective archive path: the given path
with the default suffix appended when its extension is empty, and with
".npz" appended by the archive writer when the result does not already
end in ".npz" — by the time the call returns its failure tuple. -/
theorem c10_archive_written_first (params : List (String × List (String × Value)))
    (gp : List (String × Value)) (s1 s2 : String) (fs : FS) (k : String)
    (hg : lookupD params "global" = some gp)
    (hk : k ∈ requiredKeys) (hmiss : lookupD gp k = none)
    (h1n : (parsePath s1).name ≠ "") (h2n : (parsePath s2).name ≠ "") :
    (save_smpl params s1 s2 fs).1.1 = ""
    ∧ strStartsWith (save_smpl params s1 s2 fs).1.2 "SaveSMPL failed: " = true
    ∧ (savezTarget (fixSuffixPath (parsePath s1) ".npz"), FileContent.npz (toNpParams gp))
        ∈ (save_smpl params s1 s2 fs).2.files := by
  obtain ⟨e, hbd⟩ := buildPredDict_error_of_missing gp requiredKeys k hk hmiss
  have hcore : save_smpl_core params s1 s2 fs
      = (.error e,
        ((fs.mkdirParents (parsePath s1).parent).mkdirParents (parsePath s2).parent).writeFile
          (savezTarget (fixSuffixPath (parsePath s1) ".npz"))
          (FileContent.npz (toNpParams gp))) := by
    unfold save_smpl_core
    rw [hg]
    dsimp only
    rw [fixSuffix_ok_of_name_ne _ _ h1n]
    dsimp only
    rw [fixSuffix_ok_of_name_ne _ _ h2n]
    dsimp only
    unfold buildPred
    rw [hbd]
  have hs := save_smpl_of_core_error _ _ _ _ _ _ hcore
  refine ⟨?_, ?_, ?_⟩
  · rw [hs]
  · rw [hs]
    exact strStartsWith_append _ _
  · rw [hs]
    simp [FS.writeFile, mkdirParents_files]

/-- Witness for the amended C10: with `betas` missing, the archive file
is present at the effective archive path when the failure tuple returns. -/
theorem c10_witness :
    (savezTarget (fixSuffixPath (parsePath "o/m") ".npz"),
        FileContent.npz (toNpParams gpNoBetas))
      ∈ (save_smpl bundleNoBetas "o/m" "p/m" FS.init).2.files :=
  (c10_archive_written_first bundleNoBetas gpNoBetas "o/m" "p/m" FS.init "betas"
    (by decide) (by decide) (by decide) (by decide) (by decide)).2.2

end SaveSmplNode
